import Mathlib

/-!
Shallow embedding of the recording session controller of
`src/rust_version/src/recorder.rs` (the `Recorder` state machine, the
Session Clock and the Command Builder), on the Linux (`not(target_os =
"windows")`) branch, which is the platform with pause support.

Time is modelled as `Nat` (an `Instant` is an absolute time-stamp, a
`Duration` a number); each operation that reads the clock takes `now`
explicitly.  The child process is an opaque handle; spawning and the
grace-period wait are environment inputs passed as parameters.  Natural
subtraction models Rust's saturating `Duration` subtraction.
-/

namespace ScreenRecorder

/-- `RecordingMode` from recorder.rs: `Screen`, `Camera`, `PiP`. -/
inductive RecordingMode where
  | Screen
  | Camera
  | PiP
deriving DecidableEq, Repr

/-- `RecordingConfig` from recorder.rs (lines 14-26).  `PathBuf` is a
string; `u32` sizes are `Nat`, `i32` offsets are `Int`. -/
structure RecordingConfig where
  output_path : String
  width : Nat
  height : Nat
  x : Int
  y : Int
  mode : RecordingMode
  camera_device : String
  audio_enabled : Bool
  audio_device : String
  container_format : String
deriving DecidableEq, Repr

/-- An opaque child-process handle (`std::process::Child`); only its
identity matters to the controller. -/
structure Child where
  id : Nat
deriving DecidableEq, Repr

/-- The `Recorder` struct (recorder.rs lines 28-33): session state owned
by the process supervisor. -/
structure Recorder where
  child : Option Child
  start_time : Option Nat
  paused_duration : Nat
  last_pause_time : Option Nat
deriving DecidableEq, Repr

/-- A rendered process invocation: program name plus argument list. -/
structure Invocation where
  program : String
  args : List String
deriving DecidableEq, Repr

/-- Primary video input when mode is `Screen` or `PiP` (Linux branch,
recorder.rs lines 118-125): x11grab over the configured region. -/
def screenInputArgs (c : RecordingConfig) : List String :=
  ["-f", "x11grab",
   "-video_size", toString c.width ++ "x" ++ toString c.height,
   "-framerate", "30",
   "-i", ":0.0+" ++ toString c.x ++ "," ++ toString c.y]

/-- Primary video input when mode is `Camera` (Linux branch, recorder.rs
lines 134-140): v4l2 on the camera device at 640x480. -/
def cameraPrimaryArgs (c : RecordingConfig) : List String :=
  ["-f", "v4l2", "-framerate", "30", "-video_size", "640x480",
   "-i", c.camera_device]

/-- Input 1 selection by mode (recorder.rs lines 106-142). -/
def primaryInputArgs (c : RecordingConfig) : List String :=
  match c.mode with
  | RecordingMode.Screen => screenInputArgs c
  | RecordingMode.PiP => screenInputArgs c
  | RecordingMode.Camera => cameraPrimaryArgs c

/-- Second video input, only for PiP (Linux branch, recorder.rs lines
152-158): the camera at the fixed small 320x240 frame. -/
def pipCameraArgs (c : RecordingConfig) : List String :=
  ["-f", "v4l2", "-framerate", "30", "-video_size", "320x240",
   "-i", c.camera_device]

/-- Audio input when enabled (Linux branch, recorder.rs lines 168-173):
alsa on the audio device, forced to 2 channels. -/
def audioInputArgs (c : RecordingConfig) : List String :=
  ["-f", "alsa", "-i", c.audio_device, "-ac", "2"]

/-- The PiP compositing directive value (recorder.rs line 181): overlay
input 1 on input 0 at 10px inset from the top-right corner. -/
def pipOverlayDirective : String :=
  "[0:v][1:v] overlay=main_w-overlay_w-10:10"

/-- Encoder selection by container format (recorder.rs lines 186-199):
webm gets libvpx-vp9 at a fixed bitrate, anything else the mp4 default
libx264 ultrafast with crf 23 and the yuv420p pixel format. -/
def encodingArgs (c : RecordingConfig) : List String :=
  if c.container_format = "webm" then
    ["-c:v", "libvpx-vp9", "-b:v", "2M"]
  else
    ["-c:v", "libx264", "-preset", "ultrafast", "-crf", "23",
     "-pix_fmt", "yuv420p"]

/-- The full argument list rendered from a config by `Recorder::start`
(Linux branch, recorder.rs lines 103-202), ending with the overwrite
flag and the output path. -/
def buildArgs (c : RecordingConfig) : List String :=
  primaryInputArgs c
    ++ (if c.mode = RecordingMode.PiP then pipCameraArgs c else [])
    ++ (if c.audio_enabled then audioInputArgs c else [])
    ++ (if c.mode = RecordingMode.PiP then
          ["-filter_complex", pipOverlayDirective] else [])
    ++ encodingArgs c
    ++ ["-y", c.output_path]

/-- The invocation spawned by `start`: recorder.rs line 103 fixes the
program name to "ffmpeg"; the arguments come from the config. -/
def buildInvocation (c : RecordingConfig) : Invocation :=
  { program := "ffmpeg", args := buildArgs c }

/-- `Recorder::new` (recorder.rs lines 89-96): the empty session. -/
def Recorder.new : Recorder :=
  { child := none, start_time := none, paused_duration := 0,
    last_pause_time := none }

/-- `Recorder::start` (recorder.rs lines 98-219).  `spawnFn` is the
environment: it receives the rendered invocation and either produces a
child or a spawn error.  Returns the call's result with the post-state
(Rust mutates `&mut self`; on any error no field has been assigned). -/
def Recorder.start (r : Recorder) (config : RecordingConfig)
    (spawnFn : Invocation → Except String Child) (now : Nat) :
    Except String Unit × Recorder :=
  if r.child.isSome then
    (Except.error "Already recording", r)
  else
    match spawnFn (buildInvocation config) with
    | Except.error e =>
        (Except.error ("Failed to start ffmpeg: " ++ e), r)
    | Except.ok ch =>
        (Except.ok (),
         { child := some ch, start_time := some now,
           paused_duration := 0, last_pause_time := none })

/-- Outcome of the bounded grace-period wait in `stop` (recorder.rs
lines 253-263): natural exit within 5s, timeout, or a wait error.  The
latter two lead to kill-and-reap; all three paths fall through to the
same state reset. -/
inductive WaitOutcome where
  | exited
  | timedOut
  | waitErr
deriving DecidableEq, Repr

/-- `Recorder::stop` (recorder.rs lines 221-271): takes the child out,
signals and waits (forced kill on timeout is swallowed), clears the
start and pause time-stamps.  `paused_duration` is not assigned. -/
def Recorder.stop (r : Recorder) (_w : WaitOutcome) :
    Except String Unit × Recorder :=
  match r.child with
  | some _ =>
      (Except.ok (),
       { child := none, start_time := none,
         paused_duration := r.paused_duration, last_pause_time := none })
  | none => (Except.error "Not recording", r)

/-- `Recorder::pause` (recorder.rs lines 273-297, Linux branch): needs a
live child and no pending pause; records the pause time-stamp. -/
def Recorder.pause (r : Recorder) (now : Nat) :
    Except String Unit × Recorder :=
  match r.child with
  | some _ =>
      if r.last_pause_time.isSome then
        (Except.error "Already paused", r)
      else
        (Except.ok (), { r with last_pause_time := some now })
  | none => (Except.error "Not recording", r)

/-- `Recorder::resume` (recorder.rs lines 299-324, Linux branch): needs a
live child and a pending pause; folds the completed pause interval into
the accumulator and clears the pause time-stamp. -/
def Recorder.resume (r : Recorder) (now : Nat) :
    Except String Unit × Recorder :=
  match r.child with
  | some _ =>
      match r.last_pause_time with
      | some pt =>
          (Except.ok (),
           { r with paused_duration := r.paused_duration + (now - pt),
                    last_pause_time := none })
      | none => (Except.error "Not paused", r)
  | none => (Except.error "Not recording", r)

/-- `Recorder::is_recording` (recorder.rs lines 326-328). -/
def Recorder.is_recording (r : Recorder) : Bool :=
  r.child.isSome

/-- `Recorder::is_paused` (recorder.rs lines 330-332). -/
def Recorder.is_paused (r : Recorder) : Bool :=
  r.last_pause_time.isSome

/-- `Recorder::get_duration` (recorder.rs lines 334-345): while a start
time exists, elapsed time up to the pause time-stamp (if paused) or now,
minus the accumulated paused duration, with saturating subtraction;
otherwise zero. -/
def Recorder.get_duration (r : Recorder) (now : Nat) : Nat :=
  match r.start_time with
  | some start =>
      (match r.last_pause_time with
       | some pt => pt - start
       | none => now - start) - r.paused_duration
  | none => 0

/-- Flags of the rendered command that take a value in the following
argument (every flag the builder emits except the valueless "-y"). -/
def valuedFlags : List String :=
  ["-f", "-framerate", "-offset_x", "-offset_y", "-video_size", "-i",
   "-ac", "-filter_complex", "-c:v", "-b:v", "-preset", "-crf",
   "-pix_fmt"]

/-- View of a flat argument list as flag/value pairs: a valued flag
consumes the following argument, everything else stands alone. -/
def parseArgs : List String → List (String × Option String)
  | [] => []
  | [a] => [(a, none)]
  | a :: b :: rest =>
      if a ∈ valuedFlags then (a, some b) :: parseArgs rest
      else (a, none) :: parseArgs (b :: rest)

/-- Count the "-i" inputs whose governing "-f" format is one of the
Linux video capture backends, tracking the current format. -/
def videoInputCountAux : List (String × Option String) → String → Nat
  | [], _ => 0
  | (a, v) :: rest, f =>
      if a = "-f" then videoInputCountAux rest (v.getD f)
      else if a == "-i" && v.isSome && (f == "x11grab" || f == "v4l2") then
        1 + videoInputCountAux rest f
      else videoInputCountAux rest f

/-- Number of video inputs in a rendered argument list. -/
def videoInputCount (args : List String) : Nat :=
  videoInputCountAux (parseArgs args) ""

/-- Number of compositing directives ("-filter_complex" with an
argument) in a rendered argument list. -/
def compositingCount (args : List String) : Nat :=
  (parseArgs args).countP (fun p => p.1 == "-filter_complex" && p.2.isSome)

/-- Whether the first character list is a prefix of the second. -/
def startsWithChars : List Char → List Char → Bool
  | [], _ => true
  | _ :: _, [] => false
  | a :: as, b :: bs => a == b && startsWithChars as bs

/-- Whether the first character list occurs inside the second. -/
def occursChars : List Char → List Char → Bool
  | needle, [] => startsWithChars needle []
  | needle, b :: rest =>
      startsWithChars needle (b :: rest) || occursChars needle rest

/-- Whether `needle` occurs as a substring of `s`. -/
def occursIn (needle s : String) : Bool :=
  occursChars needle.data s.data

/-- A filter directive references both the first and the second video
input when it names the labels of both streams. -/
def referencesBothInputs (s : String) : Bool :=
  occursIn "[0:v]" s && occursIn "[1:v]" s

/-- The invariant of claim C5: a session cannot be paused while idle. -/
def PausedImpliesRecording (r : Recorder) : Prop :=
  r.last_pause_time.isSome = true → r.child.isSome = true

/-- A concrete fully resolved Screen-mode config, for witnesses. -/
def sampleConfig : RecordingConfig :=
  { output_path := "out.mp4", width := 1280, height := 720,
    x := 100, y := 50, mode := RecordingMode.Screen, camera_device := "",
    audio_enabled := false, audio_device := "default",
    container_format := "mp4" }

/-- An environment in which spawning always succeeds. -/
def spawnOk : Invocation → Except String Child :=
  fun _ => Except.ok { id := 1 }

/-- An environment in which spawning always fails. -/
def spawnErr : Invocation → Except String Child :=
  fun _ => Except.error "No such file or directory"

/-- A live recording session (child present, started at time 0). -/
def recLive : Recorder :=
  { child := some { id := 1 }, start_time := some 0,
    paused_duration := 0, last_pause_time := none }

/-- A live session paused at time 5. -/
def recPaused : Recorder :=
  { child := some { id := 1 }, start_time := some 0,
    paused_duration := 0, last_pause_time := some 5 }

/-- An idle controller that retains a nonzero accumulator from an
earlier session (the state `stop` leaves behind after pause cycles). -/
def recAfterSession : Recorder :=
  { child := none, start_time := none, paused_duration := 4,
    last_pause_time := none }

/-- C1: `start` on an Idle controller whose spawn succeeds returns Ok
and transitions to Recording with `isRecording()` true; `start` while a
session is live fails with AlreadyActive ("Already recording") and
leaves every session field unchanged; on spawn failure `start` returns
SpawnFailed ("Failed to start ffmpeg: ...") and the controller remains
Idle, fields unchanged. -/
theorem c1_start_spec (r : Recorder) (c : RecordingConfig)
    (sp : Invocation → Except String Child) (now : Nat) :
    (r.child = none → ∀ ch, sp (buildInvocation c) = Except.ok ch →
      (r.start c sp now).1 = Except.ok () ∧
      (r.start c sp now).2 =
        { child := some ch, start_time := some now,
          paused_duration := 0, last_pause_time := none } ∧
      (r.start c sp now).2.is_recording = true) ∧
    (r.child.isSome = true →
      (r.start c sp now).1 = Except.error "Already recording" ∧
      (r.start c sp now).2 = r) ∧
    (r.child = none → ∀ e, sp (buildInvocation c) = Except.error e →
      (r.start c sp now).1 =
        Except.error ("Failed to start ffmpeg: " ++ e) ∧
      (r.start c sp now).2 = r ∧
      (r.start c sp now).2.is_recording = false) := by
  refine ⟨?_, ?_, ?_⟩
  · intro h ch hsp
    simp [Recorder.start, h, hsp, Recorder.is_recording]
  · intro h
    simp [Recorder.start, h]
  · intro h e hsp
    simp [Recorder.start, h, hsp, Recorder.is_recording]

/-- Witness for C1 at a concrete Idle controller and succeeding spawn. -/
theorem c1_start_witness :
    (Recorder.new.start sampleConfig spawnOk 0).1 = Except.ok () ∧
    (Recorder.new.start sampleConfig spawnOk 0).2.is_recording = true := by
  have h := (c1_start_spec Recorder.new sampleConfig spawnOk 0).1 rfl
    { id := 1 } rfl
  exact ⟨h.1, h.2.2⟩

/-- C2: `stop` on Idle fails with NotActive ("Not recording") and leaves
the state unchanged; `stop` while a child is present (Recording or
Paused) returns Ok and ends Idle with `isRecording()` and `isPaused()`
false for every wait outcome, so a forced kill after the grace period is
not reported as an error. -/
theorem c2_stop_spec (r : Recorder) (w : WaitOutcome) :
    (r.child = none → r.stop w = (Except.error "Not recording", r)) ∧
    (r.child.isSome = true →
      (r.stop w).1 = Except.ok () ∧
      (r.stop w).2.is_recording = false ∧
      (r.stop w).2.is_paused = false) := by
  constructor
  · intro h
    simp [Recorder.stop, h]
  · intro h
    obtain ⟨ch, hch⟩ := Option.isSome_iff_exists.mp h
    simp [Recorder.stop, hch, Recorder.is_recording, Recorder.is_paused]

/-- Witness for C2: stopping a paused session after a grace-period
timeout still succeeds and ends Idle. -/
theorem c2_stop_witness :
    (recPaused.stop WaitOutcome.timedOut).1 = Except.ok () ∧
    (recPaused.stop WaitOutcome.timedOut).2.is_recording = false ∧
    (recPaused.stop WaitOutcome.timedOut).2.is_paused = false :=
  (c2_stop_spec recPaused WaitOutcome.timedOut).2 rfl

/-- Counterexample to C3 as stated: after start at 0, pause at 5, resume
at 9 and a successful stop, the accumulated paused duration is 4, not
zero — `stop` does not clear the accumulator. -/
theorem c3_counterexample :
    (((((Recorder.new.start sampleConfig spawnOk 0).2.pause 5).2.resume
        9).2.stop WaitOutcome.exited).1 = Except.ok ()) ∧
    ((((Recorder.new.start sampleConfig spawnOk 0).2.pause 5).2.resume
        9).2.stop WaitOutcome.exited).2.paused_duration ≠ 0 :=
  ⟨rfl, by decide⟩

/-- C3 amended: after any successful `stop`, the child handle, the start
time-stamp and the pause time-stamp are all cleared, but the accumulated
paused duration is left unchanged (it is only reset by the next
successful `start`). -/
theorem c3_stop_clears_amended (r : Recorder) (w : WaitOutcome)
    (h : r.child.isSome = true) :
    (r.stop w).2.child = none ∧
    (r.stop w).2.start_time = none ∧
    (r.stop w).2.last_pause_time = none ∧
    (r.stop w).2.paused_duration = r.paused_duration := by
  obtain ⟨ch, hch⟩ := Option.isSome_iff_exists.mp h
  simp [Recorder.stop, hch]

/-- Witness for the amended C3 at a concrete paused session. -/
theorem c3_stop_clears_witness :
    (recPaused.stop WaitOutcome.exited).2.child = none ∧
    (recPaused.stop WaitOutcome.exited).2.start_time = none ∧
    (recPaused.stop WaitOutcome.exited).2.last_pause_time = none ∧
    (recPaused.stop WaitOutcome.exited).2.paused_duration =
      recPaused.paused_duration :=
  c3_stop_clears_amended recPaused WaitOutcome.exited rfl

/-- C4: whenever a start time-stamp exists, `get_duration` equals (pause
time-stamp if paused, otherwise now) minus the start time-stamp minus
the accumulated paused duration, with saturating subtraction; with no
session (never started, or right after a stop) it is exactly zero. -/
theorem c4_duration_formula (r : Recorder) (now : Nat) :
    (∀ s, r.start_time = some s →
      r.get_duration now =
        r.last_pause_time.getD now - s - r.paused_duration) ∧
    (r.start_time = none → r.get_duration now = 0) ∧
    Recorder.new.get_duration now = 0 ∧
    (∀ w, r.child.isSome = true →
      ((r.stop w).2).get_duration now = 0) := by
  refine ⟨?_, ?_, rfl, ?_⟩
  · intro s hs
    cases hp : r.last_pause_time <;> simp [Recorder.get_duration, hs, hp]
  · intro h
    simp [Recorder.get_duration, h]
  · intro w h
    obtain ⟨ch, hch⟩ := Option.isSome_iff_exists.mp h
    simp [Recorder.stop, hch, Recorder.get_duration]

/-- Witness for C4: a paused session's duration is frozen at the pause
time-stamp, and duration right after stop is zero. -/
theorem c4_duration_witness :
    recPaused.get_duration 100 =
      recPaused.last_pause_time.getD 100 - 0 - recPaused.paused_duration ∧
    ((recPaused.stop WaitOutcome.exited).2).get_duration 100 = 0 :=
  ⟨(c4_duration_formula recPaused 100).1 0 rfl,
   (c4_duration_formula recPaused 100).2.2.2 WaitOutcome.exited rfl⟩

/-- C5: the invariant "paused implies recording" holds of the freshly
constructed controller and is preserved by `start`, `stop`, `pause` and
`resume` from any state satisfying it. -/
theorem c5_invariant_preserved (r : Recorder)
    (hr : PausedImpliesRecording r) :
    PausedImpliesRecording Recorder.new ∧
    (∀ c sp now, PausedImpliesRecording (Recorder.start r c sp now).2) ∧
    (∀ w, PausedImpliesRecording (r.stop w).2) ∧
    (∀ now, PausedImpliesRecording (r.pause now).2) ∧
    (∀ now, PausedImpliesRecording (r.resume now).2) := by
  refine ⟨?_, ?_, ?_, ?_, ?_⟩
  · intro h
    simp [Recorder.new] at h
  · intro c sp now
    cases hc : r.child with
    | some ch => simpa [Recorder.start, hc] using hr
    | none =>
        cases hsp : sp (buildInvocation c) with
        | error e => simpa [Recorder.start, hc, hsp] using hr
        | ok ch =>
            intro h
            simp [Recorder.start, hc, hsp]
  · intro w
    cases hc : r.child with
    | some ch =>
        intro h
        simp [Recorder.stop, hc] at h
    | none => simpa [Recorder.stop, hc] using hr
  · intro now
    cases hc : r.child with
    | some ch =>
        by_cases hp : r.last_pause_time.isSome = true
        · simpa [Recorder.pause, hc, hp] using hr
        · intro h
          simp [Recorder.pause, hc, hp, hc]
    | none => simpa [Recorder.pause, hc] using hr
  · intro now
    cases hc : r.child with
    | some ch =>
        cases hp : r.last_pause_time with
        | some pt =>
            intro h
            simp [Recorder.resume, hc, hp] at h
        | none => simpa [Recorder.resume, hc, hp] using hr
    | none => simpa [Recorder.resume, hc] using hr

/-- Witness for C5 at a concrete paused session satisfying the
invariant. -/
theorem c5_invariant_witness :
    PausedImpliesRecording (recPaused.resume 9).2 ∧
    PausedImpliesRecording (recPaused.pause 9).2 :=
  ⟨(c5_invariant_preserved recPaused (fun _ => rfl)).2.2.2.2 9,
   (c5_invariant_preserved recPaused (fun _ => rfl)).2.2.2.1 9⟩

/-- C6: within a session, `pause` never changes the accumulated paused
duration; the accumulator is non-decreasing under `resume`; a
successful `resume` from a pause taken at `pt` adds exactly the
completed pause interval `now - pt`; and a failing `resume` leaves the
accumulator unchanged. -/
theorem c6_accumulator (r : Recorder) (now : Nat) :
    ((r.pause now).2.paused_duration = r.paused_duration) ∧
    (r.paused_duration ≤ (r.resume now).2.paused_duration) ∧
    (∀ pt, r.child.isSome = true → r.last_pause_time = some pt →
      (r.resume now).1 = Except.ok () ∧
      (r.resume now).2.paused_duration =
        r.paused_duration + (now - pt)) ∧
    ((r.resume now).1 ≠ Except.ok () →
      (r.resume now).2.paused_duration = r.paused_duration) := by
  refine ⟨?_, ?_, ?_, ?_⟩
  · cases hc : r.child with
    | some ch =>
        by_cases hp : r.last_pause_time.isSome = true
        · simp [Recorder.pause, hc, hp]
        · simp [Recorder.pause, hc, hp]
    | none => simp [Recorder.pause, hc]
  · cases hc : r.child with
    | some ch =>
        cases hp : r.last_pause_time with
        | some pt => simp [Recorder.resume, hc, hp]
        | none => simp [Recorder.resume, hc, hp]
    | none => simp [Recorder.resume, hc]
  · intro pt hcs hp
    obtain ⟨ch, hc⟩ := Option.isSome_iff_exists.mp hcs
    simp [Recorder.resume, hc, hp]
  · intro hfail
    cases hc : r.child with
    | some ch =>
        cases hp : r.last_pause_time with
        | some pt =>
            exact absurd (by simp [Recorder.resume, hc, hp]) hfail
        | none => simp [Recorder.resume, hc, hp]
    | none => simp [Recorder.resume, hc]

/-- Witness for C6: resuming the concrete paused session at time 9 adds
exactly the 4-unit pause interval, and pause changes nothing. -/
theorem c6_accumulator_witness :
    (recPaused.pause 9).2.paused_duration = recPaused.paused_duration ∧
    (recPaused.resume 9).1 = Except.ok () ∧
    (recPaused.resume 9).2.paused_duration =
      recPaused.paused_duration + (9 - 5) := by
  have h := c6_accumulator recPaused 9
  exact ⟨h.1, (h.2.2.1 5 rfl rfl).1, (h.2.2.1 5 rfl rfl).2⟩

/-- C7: on the platform with pause support, `pause` on Idle fails with
NotActive and on a paused session with AlreadyPaused; `resume` on Idle
fails with NotActive and on a non-paused recording with NotPaused; every
failing call returns the state unchanged. -/
theorem c7_wrong_state_errors (r : Recorder) (now : Nat) :
    (r.child = none →
      r.pause now = (Except.error "Not recording", r)) ∧
    (r.child.isSome = true → r.last_pause_time.isSome = true →
      r.pause now = (Except.error "Already paused", r)) ∧
    (r.child = none →
      r.resume now = (Except.error "Not recording", r)) ∧
    (r.child.isSome = true → r.last_pause_time = none →
      r.resume now = (Except.error "Not paused", r)) := by
  refine ⟨?_, ?_, ?_, ?_⟩
  · intro h
    simp [Recorder.pause, h]
  · intro hcs hp
    obtain ⟨ch, hc⟩ := Option.isSome_iff_exists.mp hcs
    simp [Recorder.pause, hc, hp]
  · intro h
    simp [Recorder.resume, h]
  · intro hcs hp
    obtain ⟨ch, hc⟩ := Option.isSome_iff_exists.mp hcs
    simp [Recorder.resume, hc, hp]

/-- Witness for C7 at concrete Idle, Paused and Recording states. -/
theorem c7_wrong_state_witness :
    Recorder.new.pause 3 = (Except.error "Not recording", Recorder.new) ∧
    recPaused.pause 7 = (Except.error "Already paused", recPaused) ∧
    Recorder.new.resume 3 = (Except.error "Not recording", Recorder.new) ∧
    recLive.resume 7 = (Except.error "Not paused", recLive) :=
  ⟨(c7_wrong_state_errors Recorder.new 3).1 rfl,
   (c7_wrong_state_errors recPaused 7).2.1 rfl rfl,
   (c7_wrong_state_errors Recorder.new 3).2.2.1 rfl,
   (c7_wrong_state_errors recLive 7).2.2.2 rfl rfl⟩

/-- C10: every successful `start` resets the accumulated paused duration
to zero and clears the pause time-stamp, so elapsed time in the new
session is exactly `t - now` — it never includes pause intervals from an
earlier session, even though `stop` does not reset the accumulator. -/
theorem c10_start_resets_accumulator (r : Recorder) (c : RecordingConfig)
    (sp : Invocation → Except String Child) (now : Nat)
    (h : (r.start c sp now).1 = Except.ok ()) :
    (r.start c sp now).2.paused_duration = 0 ∧
    (r.start c sp now).2.last_pause_time = none ∧
    ∀ t, ((r.start c sp now).2).get_duration t = t - now := by
  cases hc : r.child with
  | some ch => simp [Recorder.start, hc] at h
  | none =>
      cases hsp : sp (buildInvocation c) with
      | error e => simp [Recorder.start, hc, hsp] at h
      | ok ch => simp [Recorder.start, hc, hsp, Recorder.get_duration]

/-- Witness for C10: restarting after a session that left a stale
4-unit accumulator still yields a fresh clock. -/
theorem c10_start_resets_witness :
    (recAfterSession.start sampleConfig spawnOk 100).2.paused_duration
      = 0 ∧
    (recAfterSession.start sampleConfig spawnOk 100).2.last_pause_time
      = none ∧
    ((recAfterSession.start sampleConfig spawnOk 100).2).get_duration 107
      = 107 - 100 := by
  have h := c10_start_resets_accumulator recAfterSession sampleConfig
    spawnOk 100 rfl
  exact ⟨h.1, h.2.1, h.2.2 107⟩

/-- A trailing lone argument (the output path) parses to a valueless
token and never counts as a video input, whatever string it is. -/
theorem videoInputCountAux_single (s f : String) :
    videoInputCountAux [(s, none)] f = 0 := by
  by_cases h : s = "-f"
  · simp [videoInputCountAux, h]
  · simp [videoInputCountAux, h]

/-- C8: for every PictureInPicture config, the rendered argument list
has exactly two video inputs (the x11grab screen capture and a second
v4l2 camera input at the fixed 320x240 frame) and exactly one
compositing directive, which references both input streams and overlays
the second on the first at a 10px inset from the top-right corner. -/
theorem c8_pip_arguments (c : RecordingConfig)
    (hm : c.mode = RecordingMode.PiP) :
    videoInputCount (buildArgs c) = 2 ∧
    compositingCount (buildArgs c) = 1 ∧
    ("-filter_complex", some pipOverlayDirective) ∈
      parseArgs (buildArgs c) ∧
    referencesBothInputs pipOverlayDirective = true ∧
    List.IsInfix (pipCameraArgs c) (buildArgs c) := by
  refine ⟨?_, ?_, ?_, by decide, ?_⟩
  · cases ha : c.audio_enabled <;> by_cases hw : c.container_format = "webm" <;>
      simp [videoInputCount, buildArgs, primaryInputArgs, hm,
        screenInputArgs, pipCameraArgs, audioInputArgs, encodingArgs,
        ha, hw, parseArgs, valuedFlags, videoInputCountAux,
        videoInputCountAux_single, pipOverlayDirective]
  · cases ha : c.audio_enabled <;> by_cases hw : c.container_format = "webm" <;>
      simp [compositingCount, buildArgs, primaryInputArgs, hm,
        screenInputArgs, pipCameraArgs, audioInputArgs, encodingArgs,
        ha, hw, parseArgs, valuedFlags, List.countP_cons,
        pipOverlayDirective]
  · cases ha : c.audio_enabled <;> by_cases hw : c.container_format = "webm" <;>
      simp [buildArgs, primaryInputArgs, hm, screenInputArgs,
        pipCameraArgs, audioInputArgs, encodingArgs, ha, hw, parseArgs,
        valuedFlags, pipOverlayDirective]
  · refine ⟨screenInputArgs c, (if c.audio_enabled then audioInputArgs c
      else []) ++ ["-filter_complex", pipOverlayDirective]
      ++ encodingArgs c ++ ["-y", c.output_path], ?_⟩
    simp [buildArgs, primaryInputArgs, hm, List.append_assoc]

/-- Witness for C8 at a concrete fully resolved PiP config. -/
theorem c8_pip_witness :
    videoInputCount (buildArgs { sampleConfig with
      mode := RecordingMode.PiP, camera_device := "/dev/video0" }) = 2 ∧
    compositingCount (buildArgs { sampleConfig with
      mode := RecordingMode.PiP, camera_device := "/dev/video0" }) = 1 :=
  ⟨(c8_pip_arguments _ rfl).1, (c8_pip_arguments _ rfl).2.1⟩

/-- C9 evaluation: the program of the invocation `start` spawns is the
hard-coded name "ffmpeg" for every config — in particular it is not the
"./ffmpeg" path the GUI resolves before start — and `RecordingConfig`
carries no executable-path field for the builder to consult. -/
theorem c9_program_hardcoded (c : RecordingConfig) :
    (buildInvocation c).program = "ffmpeg" ∧
    (buildInvocation c).program ≠ "./ffmpeg" :=
  ⟨rfl, by simp [buildInvocation]⟩

end ScreenRecorder
